import Mathlib

/-!
Shallow embedding of `PyHp/hp_disk_protection.py` (HP disk protection daemon).

Strings are modelled as `List Char` (Python strings are sequences of code
points).  Filesystem writes performed by `_write_int` are recorded as a trace
of attempted `(path, value)` writes; whether an attempt actually reaches the
control surface is decided by the environment's `writable` predicate, and the
observable device state is the last value successfully written to a path.
The main loop `run` is driven by a list of read outcomes of the freefall
device (`/dev/freefall`): a data byte, an empty read, a KeyboardInterrupt, an
OSError with an errno, or the SIGALRM timer firing during the blocking read
(which runs `_signal_handler` and makes the read raise OSError EINTR).
-/

namespace HPFall

/-- Python strings modelled as lists of characters. -/
abbrev Str := List Char

/-- The fixed indicator LED control path used by `set_led`. -/
def led_path : Str := "/sys/class/leds/hp::hddprotect/brightness".data

/-- Linux `errno.EINTR`. -/
def EINTR : Nat := 4

/-- `_set_unload_heads_path`: rejects the device string when
`len(device) <= 5 or not device.startswith("/dev/")`; otherwise derives
`/sys/block/{device[5:]}/device/unload_heads`. Returns `none` on rejection
(the Python method returns `False` and `__init__` raises `ValueError`). -/
def set_unload_heads_path (device : Str) : Option Str :=
  if device.length ≤ 5 ∨ "/dev/".data.isPrefixOf device = false then
    none
  else
    some ("/sys/block/".data ++ device.drop 5 ++ "/device/unload_heads".data)

/-- A constructed `HPDiskProtection` object: the device name and the derived
head-park control path (`unload_heads_path`). -/
structure Handle where
  device : Str
  unload_heads_path : Str
deriving Repr, DecidableEq

/-- The two exceptions `__init__` can raise. -/
inductive InitError where
  | valueError (device : Str)
  | runtimeError (device : Str)
deriving Repr, DecidableEq

/-- The parts of the OS environment the program touches: which paths can be
opened for reading, which for writing, and whether `/dev/freefall` opens. -/
structure Env where
  readable : Str → Bool
  writable : Str → Bool
  freefallOpens : Bool

/-- `_valid_disk`: the head-park surface can be opened for reading. -/
def valid_disk (env : Env) (path : Str) : Bool := env.readable path

/-- `HPDiskProtection.__init__`: derive the head-park path (raising
`ValueError` on rejection), then probe it with `_valid_disk` (raising
`RuntimeError` when unreadable). -/
def initHandle (env : Env) (device : Str) : Except InitError Handle :=
  match set_unload_heads_path device with
  | none => .error (.valueError device)
  | some p =>
      if valid_disk env p then .ok ⟨device, p⟩ else .error (.runtimeError device)

/-- Python `str.strip()`: remove leading and trailing whitespace. -/
def pyStrip (s : Str) : Str :=
  ((s.dropWhile Char.isWhitespace).reverse.dropWhile Char.isWhitespace).reverse

/-- `on_ac`: read `/sys/class/power_supply/AC0/online`; `none` models a read
failure (the `except` branch returns `True`); otherwise compare the stripped
content with `"1"`. -/
def on_ac (acContents : Option Str) : Bool :=
  match acContents with
  | none => true
  | some s => pyStrip s == "1".data

/-- Python substring test `pat in s`. -/
def isSub (pat : Str) : Str → Bool
  | [] => pat.isEmpty
  | c :: rest => pat.isPrefixOf (c :: rest) || isSub pat rest

/-- `lid_open`: read `/proc/acpi/button/lid/LID/state`; `none` models a read
failure (returns `True`); otherwise test whether `"open"` occurs in the
stripped, lower-cased content. -/
def lid_open (lidContents : Option Str) : Bool :=
  match lidContents with
  | none => true
  | some s => isSub "open".data ((pyStrip s).map Char.toLower)

/-- The mutable state of the daemon loop: the trace of attempted control
writes, the `protection_active` flag, the currently armed alarm (0 = none,
matching `signal.alarm` semantics where a single alarm is pending at most),
the history of `signal.alarm(n)` calls, and the freefall counts logged. -/
structure LoopState where
  trace : List (Str × Nat)
  protection_active : Bool
  alarm : Nat
  alarmCalls : List Nat
  loggedCounts : List Nat
deriving Repr, DecidableEq

/-- State at entry of `run`: nothing written, `protection_active = False`
(set in `__init__`), no alarm armed. -/
def initState : LoopState := ⟨[], false, 0, [], []⟩

/-- `_write_int`: attempt to write `value` to the file at `path`.  The
attempt is recorded; success (the Python return value) is determined by the
environment at observation time and is ignored by every caller. -/
def write_int (st : LoopState) (path : Str) (value : Nat) : LoopState :=
  { st with trace := st.trace ++ [(path, value)] }

/-- `set_led`: write 1 or 0 to the LED brightness surface. -/
def set_led (st : LoopState) (onFlag : Bool) : LoopState :=
  write_int st led_path (if onFlag then 1 else 0)

/-- `protect`: write `seconds * 1000` to the head-park control surface. -/
def protect (h : Handle) (st : LoopState) (seconds : Nat) : LoopState :=
  write_int st h.unload_heads_path (seconds * 1000)

/-- `signal.alarm(n)`: replaces any pending alarm with `n` (0 cancels). -/
def setAlarm (st : LoopState) (n : Nat) : LoopState :=
  { st with alarm := n, alarmCalls := st.alarmCalls ++ [n] }

/-- `_signal_handler`: unpark, LED off, clear `protection_active`. -/
def signal_handler (h : Handle) (st : LoopState) : LoopState :=
  let st := protect h st 0
  let st := set_led st false
  { st with protection_active := false }

/-- One outcome of the blocking `freefall_fd.read(1)` in the loop body. -/
inductive FFEvent where
  /-- The read returns one byte `b`; `ac` and `lid` are the contents of the
  power and lid sensor surfaces at this instant (`none` = read failure). -/
  | data (b : Nat) (ac lid : Option Str)
  /-- The read returns `b""`. -/
  | empty
  /-- A KeyboardInterrupt is raised during the read. -/
  | keyboardInterrupt
  /-- The read raises `OSError` with the given errno. -/
  | readError (eno : Nat)
  /-- The armed alarm fires during the read: `_signal_handler` runs, the
  alarm is disarmed, and the read raises `OSError(EINTR)`. -/
  | alarmFire
deriving Repr, DecidableEq

/-- How the `while True` loop terminates. -/
inductive LoopExit where
  | interrupted
  | fatalRead (eno : Nat)
deriving Repr, DecidableEq

/-- One iteration of the loop body of `run` on a read outcome.  Returns the
new state and `some exit` when the iteration executes `break`. -/
def step (h : Handle) (st : LoopState) (ev : FFEvent) : LoopState × Option LoopExit :=
  match ev with
  | .data b ac lid =>
      let st := setAlarm st 0
      let st := { st with loggedCounts := st.loggedCounts ++ [b] }
      let st := protect h st 21
      let st := set_led st true
      let st := { st with protection_active := true }
      let st := if on_ac ac || lid_open lid then setAlarm st 2 else setAlarm st 20
      (st, none)
  | .empty =>
      (setAlarm st 0, none)
  | .keyboardInterrupt =>
      (st, some .interrupted)
  | .readError eno =>
      if eno == EINTR then (st, none) else (st, some (.fatalRead eno))
  | .alarmFire =>
      ({ signal_handler h st with alarm := 0 }, none)

/-- The `while True` loop of `run`, driven by a list of read outcomes.
`none` in the second component means the input is exhausted with the loop
still blocked on the next read. -/
def runLoop (h : Handle) : LoopState → List FFEvent → LoopState × Option LoopExit
  | st, [] => (st, none)
  | st, ev :: evs =>
      match step h st ev with
      | (st', none) => runLoop h st' evs
      | (st', some e) => (st', some e)

/-- The `finally` block of `run`: `protect(0)` then `set_led(False)`. -/
def cleanup (h : Handle) (st : LoopState) : LoopState :=
  set_led (protect h st 0) false

/-- Result of `run`: the final loop state and the return code (`none` while
the loop is still blocked waiting for input). -/
structure RunResult where
  state : LoopState
  code : Option Nat
deriving Repr, DecidableEq

/-- `HPDiskProtection.run`: open `/dev/freefall` (failure prints and returns
1, after the `finally` cleanup), run the loop, and on either `break`
(KeyboardInterrupt or fatal read error) run the `finally` cleanup and
return 0. -/
def run (h : Handle) (env : Env) (events : List FFEvent) : RunResult :=
  if env.freefallOpens then
    match runLoop h initState events with
    | (st, none) => ⟨st, none⟩
    | (st, some _) => ⟨cleanup h st, some 0⟩
  else
    ⟨cleanup h initState, some 1⟩

/-- `main`: construct the `HPDiskProtection` object; `ValueError` or
`RuntimeError` print a diagnostic and return 1 without entering `run`;
otherwise return `run`'s result. -/
def main (device : Str) (env : Env) (events : List FFEvent) : RunResult :=
  match initHandle env device with
  | .error _ => ⟨initState, some 1⟩
  | .ok h => run h env events

/-- The observable device state at `path`: the value of the last attempted
write to `path` that actually succeeded, if any. -/
def deviceValue (env : Env) (tr : List (Str × Nat)) (path : Str) : Option Nat :=
  ((tr.filter (fun q => q.1 == path && env.writable q.1)).map Prod.snd).getLast?

/-- Events on which the loop body executes `break`. -/
def eventExits : FFEvent → Bool
  | .keyboardInterrupt => true
  | .readError eno => !(eno == EINTR)
  | _ => false

/-! ### Helper lemmas -/

theorem isPrefixOf_self_append (l t : Str) : l.isPrefixOf (l ++ t) = true := by
  induction l with
  | nil => simp [List.isPrefixOf]
  | cons c cs ih => simp [List.isPrefixOf, ih]

theorem cleanup_trace (h : Handle) (st : LoopState) :
    (cleanup h st).trace = st.trace ++ [(h.unload_heads_path, 0), (led_path, 0)] := by
  simp [cleanup, set_led, protect, write_int]

theorem cleanup_alarm (h : Handle) (st : LoopState) :
    (cleanup h st).alarm = st.alarm := by
  simp [cleanup, set_led, protect, write_int]

/-- The last successful write wins: appending a successful write to `p`
followed by one more write makes the observable value at `p` equal 0 when
both appended values are 0. -/
theorem deviceValue_append_pair_fst (env : Env) (tr : List (Str × Nat)) (p q : Str)
    (hw : env.writable p = true) :
    deviceValue env (tr ++ [(p, 0), (q, 0)]) p = some 0 := by
  unfold deviceValue
  rw [List.filter_append]
  by_cases hc : (q == p && env.writable q) = true
  · simp [List.filter, hw, hc, List.getLast?_append_cons]
  · simp [List.filter, hw, hc, List.getLast?_append_cons]

theorem deviceValue_append_pair_snd (env : Env) (tr : List (Str × Nat)) (p q : Str)
    (hw : env.writable p = true) :
    deviceValue env (tr ++ [(q, 0), (p, 0)]) p = some 0 := by
  unfold deviceValue
  rw [List.filter_append]
  by_cases hc : (q == p && env.writable q) = true
  · simp [List.filter, hw, hc, List.getLast?_append_cons]
  · simp [List.filter, hw, hc, List.getLast?_append_cons]

theorem deviceValue_append_single (env : Env) (tr : List (Str × Nat)) (p : Str) (v : Nat)
    (hw : env.writable p = true) :
    deviceValue env (tr ++ [(p, v)]) p = some v := by
  unfold deviceValue
  rw [List.filter_append]
  simp [List.filter, hw, List.getLast?_append_cons]

/-- A non-exiting event never breaks out of the loop. -/
theorem step_cont (h : Handle) (st : LoopState) (ev : FFEvent)
    (hx : eventExits ev = false) : (step h st ev).2 = none := by
  cases ev with
  | readError eno =>
      simp [eventExits] at hx
      simp [step, hx]
  | _ => simp [step, eventExits] at hx ⊢

/-- An exiting event breaks out of the loop without touching the state. -/
theorem step_exit (h : Handle) (st : LoopState) (ev : FFEvent)
    (hx : eventExits ev = true) :
    (step h st ev).1 = st ∧ ∃ e, (step h st ev).2 = some e := by
  cases ev with
  | keyboardInterrupt => exact ⟨rfl, _, rfl⟩
  | readError eno =>
      simp [eventExits] at hx
      simp [step, hx]
  | _ => simp [eventExits] at hx

theorem runLoop_nonexit (h : Handle) (evs : List FFEvent)
    (hnf : ∀ e ∈ evs, eventExits e = false) :
    ∀ st : LoopState, (runLoop h st evs).2 = none := by
  induction evs with
  | nil => intro st; rfl
  | cons a as ih =>
      intro st
      have ha : eventExits a = false := hnf a (by simp)
      have hstep : step h st a = ((step h st a).1, none) := by
        rw [← step_cont h st a ha]
      rw [runLoop, hstep]
      exact ih (fun e he => hnf e (by simp [he])) _

theorem runLoop_append_exit (h : Handle) (evs : List FFEvent) (ev : FFEvent)
    (hnf : ∀ e ∈ evs, eventExits e = false) (hx : eventExits ev = true) :
    ∀ st : LoopState, ∃ e, runLoop h st (evs ++ [ev]) = ((runLoop h st evs).1, some e) := by
  induction evs with
  | nil =>
      intro st
      obtain ⟨h1, e, h2⟩ := step_exit h st ev hx
      refine ⟨e, ?_⟩
      have hstep : step h st ev = (st, some e) := Prod.ext h1 h2
      simp [runLoop, hstep]
  | cons a as ih =>
      intro st
      have ha : eventExits a = false := hnf a (by simp)
      have hstep : step h st a = ((step h st a).1, none) := by
        rw [← step_cont h st a ha]
      obtain ⟨e, he⟩ := ih (fun e he => hnf e (by simp [he])) (step h st a).1
      refine ⟨e, ?_⟩
      rw [List.cons_append, runLoop, hstep, runLoop, hstep]
      exact he

/-- Any run whose input is a prefix of non-exiting events followed by one
exiting event terminates through the `finally` cleanup and returns 0. -/
theorem run_exit (h : Handle) (env : Env) (evs : List FFEvent) (ev : FFEvent)
    (ho : env.freefallOpens = true)
    (hnf : ∀ e ∈ evs, eventExits e = false) (hx : eventExits ev = true) :
    run h env (evs ++ [ev]) = ⟨cleanup h (runLoop h initState evs).1, some 0⟩ := by
  obtain ⟨e, he⟩ := runLoop_append_exit h evs ev hnf hx initState
  simp [run, ho, he]

/-! ### Concrete fixtures used by witnesses and counterexamples -/

/-- A handle as constructed for the default device `/dev/sda`. -/
def hW : Handle := ⟨"/dev/sda".data, "/sys/block/sda/device/unload_heads".data⟩

/-- An environment where every surface is readable and writable and the
freefall device opens. -/
def envW : Env := ⟨fun _ => true, fun _ => true, true⟩

/-! ### Claims -/

/-- C5: if the power-status surface read fails, `on_ac` returns true; if the
lid-state surface read fails, `lid_open` returns true; both return plain
booleans, so the failure is not surfaced to the caller as an error. -/
theorem C5_fail_open_sensors : on_ac none = true ∧ lid_open none = true :=
  ⟨rfl, rfl⟩

/-- C2: the duration armed after a freefall event is 2 seconds when
`on_ac` or `lid_open` holds and 20 seconds when both are false, for every
combination of their truth values: (T,T)→2, (T,F)→2, (F,T)→2, (F,F)→20. -/
theorem C2_duration_policy (h : Handle) (st : LoopState) (b : Nat) (ac lid : Option Str) :
    ((on_ac ac = true ∨ lid_open lid = true) →
      (step h st (.data b ac lid)).1.alarm = 2) ∧
    (on_ac ac = false → lid_open lid = false →
      (step h st (.data b ac lid)).1.alarm = 20) := by
  constructor
  · intro hor
    have hc : (on_ac ac || lid_open lid) = true := by
      rcases hor with h1 | h1 <;> simp [h1]
    simp [step, hc, setAlarm, set_led, protect, write_int]
  · intro h1 h2
    simp [step, h1, h2, setAlarm, set_led, protect, write_int]

/-- Witness for C2 at concrete sensor contents realising a true and an
all-false combination. -/
theorem C2_duration_policy_witness :
    (step hW initState (.data 0 (some "1".data) (some "closed".data))).1.alarm = 2 ∧
    (step hW initState (.data 0 (some "0".data) (some "closed".data))).1.alarm = 20 :=
  ⟨(C2_duration_policy hW initState 0 (some "1".data) (some "closed".data)).1
      (Or.inl (by decide)),
   (C2_duration_policy hW initState 0 (some "0".data) (some "closed".data)).2
      (by decide) (by decide)⟩

/-- C9: an empty read cancels any pending alarm (`signal.alarm(0)`) and
continues: no write is issued, `protection_active` is unchanged, and no new
deadline is armed; hence after a freefall event followed by an empty read
the machine is still protecting with no deadline armed. -/
theorem C9_empty_read (h : Handle) (st : LoopState) (b : Nat) (ac lid : Option Str) :
    ((step h st .empty).1.trace = st.trace ∧
     (step h st .empty).1.protection_active = st.protection_active ∧
     (step h st .empty).1.alarm = 0 ∧
     (step h st .empty).2 = none) ∧
    ((step h (step h st (.data b ac lid)).1 .empty).1.protection_active = true ∧
     (step h (step h st (.data b ac lid)).1 .empty).1.alarm = 0 ∧
     (step h (step h st (.data b ac lid)).1 .empty).1.trace
        = (step h st (.data b ac lid)).1.trace) := by
  by_cases hc : (on_ac ac || lid_open lid) = true <;>
    simp [step, hc, setAlarm, set_led, protect, write_int]

/-- C6: `protect s` writes exactly `s * 1000` (milliseconds) to the
head-park control surface; `protect 0` writes 0 and is the unpark command;
the `finally` cleanup appends the unpark and LED-off attempts to any state
whatsoever, in particular regardless of whether earlier writes succeeded;
and when the surface is writable the observable value after `protect s` is
`s * 1000`. -/
theorem C6_park_units (h : Handle) (st : LoopState) (s : Nat) (env : Env) :
    (protect h st s).trace = st.trace ++ [(h.unload_heads_path, s * 1000)] ∧
    (protect h st 0).trace = st.trace ++ [(h.unload_heads_path, 0)] ∧
    (cleanup h st).trace = st.trace ++ [(h.unload_heads_path, 0), (led_path, 0)] ∧
    (env.writable h.unload_heads_path = true →
      deviceValue env (protect h st s).trace h.unload_heads_path = some (s * 1000)) := by
  refine ⟨by simp [protect, write_int], by simp [protect, write_int],
    cleanup_trace h st, fun hw => ?_⟩
  have : (protect h st s).trace = st.trace ++ [(h.unload_heads_path, s * 1000)] := by
    simp [protect, write_int]
  rw [this]
  exact deviceValue_append_single env st.trace _ _ hw

/-- Witness for C6 at a concrete handle, state, seconds value and
environment. -/
theorem C6_park_units_witness :
    deviceValue envW (protect hW initState 3).trace hW.unload_heads_path = some 3000 :=
  (C6_park_units hW initState 3 envW).2.2.2 rfl

/-- C1: on every exit path reachable in the process — clean shutdown
(KeyboardInterrupt), fatal event-source read error, or failure to open the
event source — the `finally` cleanup appends exactly one `protect(0)`
followed by one `set_led(False)` after the loop's writes; consequently,
after any sequence of non-exiting loop iterations followed by a shutdown
signal, the observable device state is park=off and indicator=off (when the
control surfaces are writable), and the clean path returns 0. -/
theorem C1_cleanup_guarantee (h : Handle) (env : Env) (evs : List FFEvent)
    (ho : env.freefallOpens = true) (hnf : ∀ e ∈ evs, eventExits e = false) :
    ((run h env (evs ++ [.keyboardInterrupt])).state.trace
        = (runLoop h initState evs).1.trace ++ [(h.unload_heads_path, 0), (led_path, 0)] ∧
     (run h env (evs ++ [.keyboardInterrupt])).code = some 0 ∧
     (env.writable h.unload_heads_path = true →
        deviceValue env (run h env (evs ++ [.keyboardInterrupt])).state.trace
          h.unload_heads_path = some 0) ∧
     (env.writable led_path = true →
        deviceValue env (run h env (evs ++ [.keyboardInterrupt])).state.trace
          led_path = some 0)) ∧
    (∀ eno : Nat, eno ≠ EINTR →
      (run h env (evs ++ [.readError eno])).state.trace
        = (runLoop h initState evs).1.trace ++ [(h.unload_heads_path, 0), (led_path, 0)]) ∧
    (∀ env' : Env, env'.freefallOpens = false →
      (run h env' (evs ++ [.keyboardInterrupt])).state.trace
        = [(h.unload_heads_path, 0), (led_path, 0)] ∧
      (run h env' (evs ++ [.keyboardInterrupt])).code = some 1) := by
  have hkx : eventExits .keyboardInterrupt = true := rfl
  have hrun := run_exit h env evs .keyboardInterrupt ho hnf hkx
  refine ⟨⟨?_, ?_, ?_, ?_⟩, ?_, ?_⟩
  · rw [hrun]; exact cleanup_trace h _
  · rw [hrun]
  · intro hw
    rw [hrun]
    rw [show (RunResult.mk (cleanup h (runLoop h initState evs).1) (some 0)).state
        = cleanup h (runLoop h initState evs).1 from rfl, cleanup_trace]
    exact deviceValue_append_pair_fst env _ _ _ hw
  · intro hw
    rw [hrun]
    rw [show (RunResult.mk (cleanup h (runLoop h initState evs).1) (some 0)).state
        = cleanup h (runLoop h initState evs).1 from rfl, cleanup_trace]
    exact deviceValue_append_pair_snd env _ _ _ hw
  · intro eno he
    have hx : eventExits (.readError eno) = true := by
      simp [eventExits, he]
    rw [run_exit h env evs (.readError eno) ho hnf hx]
    exact cleanup_trace h _
  · intro env' ho'
    have : run h env' (evs ++ [.keyboardInterrupt]) = ⟨cleanup h initState, some 1⟩ := by
      simp [run, ho']
    rw [this]
    exact ⟨cleanup_trace h initState, rfl⟩

/-- Witness for C1 with one freefall event followed by KeyboardInterrupt in
the all-available environment. -/
theorem C1_cleanup_guarantee_witness :
    (run hW envW ([FFEvent.data 3 none none] ++ [.keyboardInterrupt])).state.trace
      = (runLoop hW initState [FFEvent.data 3 none none]).1.trace
          ++ [(hW.unload_heads_path, 0), (led_path, 0)] ∧
    (run hW envW ([FFEvent.data 3 none none] ++ [.keyboardInterrupt])).code = some 0 :=
  ⟨(C1_cleanup_guarantee hW envW [FFEvent.data 3 none none] rfl
      (by intro e he; simp at he; subst he; rfl)).1.1,
   (C1_cleanup_guarantee hW envW [FFEvent.data 3 none none] rfl
      (by intro e he; simp at he; subst he; rfl)).1.2.1⟩

/-- C3 counterexample: with every surface available, a fatal (non-EINTR)
read error mid-loop runs the cleanup exactly once but the process exit code
is 0, not non-zero — `run` breaks out of the loop and falls through to
`return 0`; only failure to open the event source returns 1. -/
theorem C3_counterexample :
    (run hW envW [.readError 5]).code = some 0 ∧
    (run hW envW [.readError 5]).state.trace
      = [(hW.unload_heads_path, 0), (led_path, 0)] := by
  constructor <;> rfl

/-- C3 (amended): a fatal (non-EINTR) read error terminates the loop and
the cleanup (`protect(0)` then `set_led(False)`) is appended exactly once,
but the process then exits with code 0; exit code 1 is only produced when
the event source cannot be opened. -/
theorem C3_fatal_error_cleanup (h : Handle) (env : Env) (evs : List FFEvent) (eno : Nat)
    (ho : env.freefallOpens = true) (hnf : ∀ e ∈ evs, eventExits e = false)
    (he : eno ≠ EINTR) :
    (run h env (evs ++ [.readError eno])).state.trace
      = (runLoop h initState evs).1.trace ++ [(h.unload_heads_path, 0), (led_path, 0)] ∧
    (run h env (evs ++ [.readError eno])).code = some 0 ∧
    (∀ env' : Env, ∀ evs' : List FFEvent,
      (run h env' evs').code = some 1 → env'.freefallOpens = false) := by
  have hx : eventExits (.readError eno) = true := by simp [eventExits, he]
  have hrun := run_exit h env evs (.readError eno) ho hnf hx
  refine ⟨?_, ?_, ?_⟩
  · rw [hrun]; exact cleanup_trace h _
  · rw [hrun]
  · intro env' evs' hcode
    by_contra hopen
    have ho' : env'.freefallOpens = true := by
      cases hfo : env'.freefallOpens with
      | true => rfl
      | false => exact absurd hfo hopen
    rw [run, if_pos ho'] at hcode
    rcases hloop : runLoop h initState evs' with ⟨st, r⟩
    rw [hloop] at hcode
    cases r <;> simp at hcode

/-- Witness for C3 (amended) at a concrete fatal errno. -/
theorem C3_fatal_error_cleanup_witness :
    (run hW envW ([] ++ [FFEvent.readError 5])).code = some 0 :=
  (C3_fatal_error_cleanup hW envW [] 5 rfl (by intro e he; simp at he)
      (by decide)).2.1

/-- C7: when the derived head-park control surface cannot be opened for
reading, construction raises `RuntimeError`, and `main` returns exit code 1
without entering the event loop (no event consumed, no write issued). -/
theorem C7_probe_failure_fatal (device p : Str) (env : Env) (evs : List FFEvent)
    (hp : set_unload_heads_path device = some p) (hr : env.readable p = false) :
    initHandle env device = .error (.runtimeError device) ∧
    main device env evs = ⟨initState, some 1⟩ := by
  have hinit : initHandle env device = .error (.runtimeError device) := by
    rw [initHandle, hp]
    simp [valid_disk, hr]
  exact ⟨hinit, by rw [main, hinit]⟩

/-- Witness for C7: `/dev/sda` with an unreadable head-park surface. -/
theorem C7_probe_failure_fatal_witness :
    main "/dev/sda".data ⟨fun _ => false, fun _ => true, true⟩ [] = ⟨initState, some 1⟩ :=
  (C7_probe_failure_fatal "/dev/sda".data
      "/sys/block/sda/device/unload_heads".data
      ⟨fun _ => false, fun _ => true, true⟩ [] (by decide) rfl).2

/-- C10: a device string is rejected (before any probe, independently of the
environment, aborting startup with exit code 1) exactly when its length is
at most 5 or it does not start with `/dev/`; every accepted string
`/dev/<name>` derives the head-park path
`/sys/block/<name>/device/unload_heads`. -/
theorem C10_device_validation (device : Str) :
    (set_unload_heads_path device = none ↔
      (device.length ≤ 5 ∨ "/dev/".data.isPrefixOf device = false)) ∧
    (set_unload_heads_path device = none →
      (∀ env : Env, initHandle env device = .error (.valueError device)) ∧
      (∀ env : Env, ∀ evs : List FFEvent, main device env evs = ⟨initState, some 1⟩)) ∧
    (∀ name : Str, name ≠ [] →
      set_unload_heads_path ("/dev/".data ++ name)
        = some ("/sys/block/".data ++ name ++ "/device/unload_heads".data)) := by
  refine ⟨?_, ?_, ?_⟩
  · by_cases hc : device.length ≤ 5 ∨ "/dev/".data.isPrefixOf device = false <;>
      simp [set_unload_heads_path, hc]
  · intro hnone
    have hinit : ∀ env : Env, initHandle env device = .error (.valueError device) := by
      intro env
      rw [initHandle, hnone]
    exact ⟨hinit, fun env evs => by rw [main, hinit env]⟩
  · intro name hne
    have hlen : ¬ ("/dev/".data ++ name).length ≤ 5 := by
      rw [List.length_append]
      have h5 : "/dev/".data.length = 5 := by decide
      have hpos : 0 < name.length := List.length_pos.mpr hne
      omega
    have hpre : "/dev/".data.isPrefixOf ("/dev/".data ++ name) = true :=
      isPrefixOf_self_append _ _
    rw [set_unload_heads_path, if_neg (by simp [hlen, hpre, hne])]
    have hdrop : ("/dev/".data ++ name).drop 5 = name := by
      have h5 : "/dev/".data.length = 5 := by decide
      rw [← h5, List.drop_left]
    rw [hdrop]

/-- Witness for C10: the accepted device `/dev/sda` and a rejected one. -/
theorem C10_device_validation_witness :
    set_unload_heads_path ("/dev/".data ++ "sda".data)
      = some ("/sys/block/".data ++ "sda".data ++ "/device/unload_heads".data) ∧
    (∀ env : Env, initHandle env "home".data = .error (.valueError "home".data)) :=
  ⟨(C10_device_validation ("/dev/".data ++ "sda".data)).2.2 "sda".data (by decide),
   ((C10_device_validation "home".data).2.1 (by decide)).1⟩

/-- C4: a freefall event read while already protecting cancels the pending
deadline and arms a fresh one by the same duration rule — the resulting
alarm does not depend on the previous deadline and the state holds a single
alarm value, so deadlines never stack; the head-park command is reissued
(`protect(21)` appended); and for any non-exiting event other than the
deadline firing, a protecting machine stays protecting and no unpark write
is issued. -/
theorem C4_rearm (h : Handle) (st : LoopState) (b : Nat) (ac lid : Option Str) :
    ((step h st (.data b ac lid)).1.alarm
        = (if on_ac ac || lid_open lid then 2 else 20)) ∧
    ((step h st (.data b ac lid)).1.trace
        = st.trace ++ [(h.unload_heads_path, 21 * 1000), (led_path, 1)]) ∧
    ((step h st (.data b ac lid)).2 = none) ∧
    (∀ st' : LoopState, ∀ ev : FFEvent, st'.protection_active = true →
      eventExits ev = false → ev ≠ .alarmFire →
      (step h st' ev).1.protection_active = true ∧
      ∃ newPart, (step h st' ev).1.trace = st'.trace ++ newPart ∧
        (h.unload_heads_path, 0) ∉ newPart) := by
  refine ⟨?_, ?_, ?_, ?_⟩
  · by_cases hc : (on_ac ac || lid_open lid) = true <;>
      simp [step, hc, setAlarm, set_led, protect, write_int]
  · by_cases hc : (on_ac ac || lid_open lid) = true <;>
      simp [step, hc, setAlarm, set_led, protect, write_int]
  · by_cases hc : (on_ac ac || lid_open lid) = true <;>
      simp [step, hc, setAlarm, set_led, protect, write_int]
  · intro st' ev hact hnx hna
    cases ev with
    | data b' ac' lid' =>
        constructor
        · by_cases hc : (on_ac ac' || lid_open lid') = true <;>
            simp [step, hc, setAlarm, set_led, protect, write_int]
        · refine ⟨[(h.unload_heads_path, 21 * 1000), (led_path, 1)], ?_, ?_⟩
          · by_cases hc : (on_ac ac' || lid_open lid') = true <;>
              simp [step, hc, setAlarm, set_led, protect, write_int]
          · simp
    | empty =>
        exact ⟨by simp [step, setAlarm, hact], [], by simp [step, setAlarm], by simp⟩
    | keyboardInterrupt => simp [eventExits] at hnx
    | readError eno =>
        simp [eventExits] at hnx
        exact ⟨by simp [step, hnx, hact], [], by simp [step, hnx], by simp⟩
    | alarmFire => exact absurd rfl hna

/-- Witness for C4 with a protecting state and an empty read in between. -/
theorem C4_rearm_witness :
    (step hW ⟨[], true, 2, [], []⟩ (.data 0 none none)).1.alarm = 2 ∧
    (step hW ⟨[], true, 2, [], []⟩ .empty).1.protection_active = true :=
  ⟨by rw [(C4_rearm hW ⟨[], true, 2, [], []⟩ 0 none none).1]; decide,
   ((C4_rearm hW ⟨[], true, 2, [], []⟩ 0 none none).2.2.2
      ⟨[], true, 2, [], []⟩ .empty rfl rfl (by decide)).1⟩

/-- Erase the byte value carried by a data event; all other events (and the
sensor readings of data events) are kept. -/
def eraseByte : FFEvent → FFEvent
  | .data _ ac lid => .data 0 ac lid
  | e => e

/-- Equality of all loop-state components except the logged byte counts. -/
def obsEq (s1 s2 : LoopState) : Prop :=
  s1.trace = s2.trace ∧ s1.protection_active = s2.protection_active ∧
  s1.alarm = s2.alarm ∧ s1.alarmCalls = s2.alarmCalls

theorem step_obsEq (h : Handle) (e1 e2 : FFEvent) (s1 s2 : LoopState)
    (hE : eraseByte e1 = eraseByte e2) (hobs : obsEq s1 s2) :
    obsEq (step h s1 e1).1 (step h s2 e2).1 ∧ (step h s1 e1).2 = (step h s2 e2).2 := by
  obtain ⟨ht, hpa, hal, hac⟩ := hobs
  cases e1 <;> cases e2 <;> simp [eraseByte] at hE
  case data.data b1 ac1 lid1 b2 ac2 lid2 =>
    obtain ⟨hA, hL⟩ := hE
    subst hA; subst hL
    by_cases hc : (on_ac ac1 || lid_open lid1) = true <;>
      simp [step, hc, setAlarm, set_led, protect, write_int, obsEq, ht, hpa, hal, hac]
  case empty.empty =>
    simp [step, setAlarm, obsEq, ht, hpa, hac]
  case keyboardInterrupt.keyboardInterrupt =>
    simp [step, obsEq, ht, hpa, hal, hac]
  case readError.readError eno1 eno2 =>
    subst hE
    by_cases hc : (eno1 == EINTR) = true <;>
      simp [step, hc, obsEq, ht, hpa, hal, hac]
  case alarmFire.alarmFire =>
    simp [step, signal_handler, set_led, protect, write_int, obsEq, ht, hpa, hac]

theorem runLoop_obsEq (h : Handle) :
    ∀ evs1 evs2 : List FFEvent, ∀ s1 s2 : LoopState,
    evs1.map eraseByte = evs2.map eraseByte → obsEq s1 s2 →
    obsEq (runLoop h s1 evs1).1 (runLoop h s2 evs2).1 ∧
      (runLoop h s1 evs1).2 = (runLoop h s2 evs2).2 := by
  intro evs1
  induction evs1 with
  | nil =>
      intro evs2 s1 s2 hmap hobs
      cases evs2 with
      | nil => exact ⟨hobs, rfl⟩
      | cons b bs => simp at hmap
  | cons e1 t1 ih =>
      intro evs2 s1 s2 hmap hobs
      cases evs2 with
      | nil => simp at hmap
      | cons e2 t2 =>
          simp only [List.map_cons, List.cons.injEq] at hmap
          obtain ⟨hE, hT⟩ := hmap
          have hs := step_obsEq h e1 e2 s1 s2 hE hobs
          rcases hp1 : step h s1 e1 with ⟨st1, r1⟩
          rcases hp2 : step h s2 e2 with ⟨st2, r2⟩
          rw [hp1, hp2] at hs
          obtain ⟨hobs', hr⟩ := hs
          simp only at hr
          subst hr
          rw [runLoop, hp1, runLoop, hp2]
          cases r1 with
          | none => exact ih t2 st1 st2 hT hobs'
          | some e => exact ⟨hobs', rfl⟩

theorem cleanup_obsEq (h : Handle) (s1 s2 : LoopState) (hobs : obsEq s1 s2) :
    obsEq (cleanup h s1) (cleanup h s2) := by
  obtain ⟨ht, hpa, hal, hac⟩ := hobs
  simp [cleanup, set_led, protect, write_int, obsEq, ht, hpa, hal, hac]

/-- C8: runs whose event sequences differ only in the byte values carried
by data events issue the same write trace (park, unpark and indicator
commands), make the same `signal.alarm` calls, end in the same protection
state with the same pending alarm, and return the same exit code; the byte
only affects the logged counts. -/
theorem C8_byte_noninterference (h : Handle) (env : Env) (evs1 evs2 : List FFEvent)
    (hm : evs1.map eraseByte = evs2.map eraseByte) :
    (run h env evs1).state.trace = (run h env evs2).state.trace ∧
    (run h env evs1).state.alarmCalls = (run h env evs2).state.alarmCalls ∧
    (run h env evs1).state.alarm = (run h env evs2).state.alarm ∧
    (run h env evs1).state.protection_active = (run h env evs2).state.protection_active ∧
    (run h env evs1).code = (run h env evs2).code := by
  by_cases ho : env.freefallOpens = true
  · have hloop := runLoop_obsEq h evs1 evs2 initState initState hm ⟨rfl, rfl, rfl, rfl⟩
    rcases hp1 : runLoop h initState evs1 with ⟨st1, r1⟩
    rcases hp2 : runLoop h initState evs2 with ⟨st2, r2⟩
    rw [hp1, hp2] at hloop
    obtain ⟨hobs, hr⟩ := hloop
    simp only at hr
    subst hr
    rw [run, if_pos ho, run, if_pos ho, hp1, hp2]
    cases r1 with
    | none => exact ⟨hobs.1, hobs.2.2.2, hobs.2.2.1, hobs.2.1, rfl⟩
    | some e =>
        have hcl := cleanup_obsEq h st1 st2 hobs
        exact ⟨hcl.1, hcl.2.2.2, hcl.2.2.1, hcl.2.1, rfl⟩
  · have ho' : env.freefallOpens = false := by
      cases hfo : env.freefallOpens with
      | true => exact absurd hfo ho
      | false => rfl
    rw [run, if_neg (by simp [ho']), run, if_neg (by simp [ho'])]
    exact ⟨rfl, rfl, rfl, rfl, rfl⟩

/-- Witness for C8: two single-event runs with different byte values. -/
theorem C8_byte_noninterference_witness :
    (run hW envW [.data 7 none none]).state.trace
      = (run hW envW [.data 9 none none]).state.trace ∧
    (run hW envW [.data 7 none none]).code = (run hW envW [.data 9 none none]).code :=
  ⟨(C8_byte_noninterference hW envW [.data 7 none none] [.data 9 none none] rfl).1,
   (C8_byte_noninterference hW envW [.data 7 none none] [.data 9 none none] rfl).2.2.2.2⟩

end HPFall
